import Mathlib

/-!
Verification development for the video-sharing backend
(controllers: like, tweet, comment, playlist, dashboard, user).

The embedding models each Mongo collection as a Lean `List` of records and
each controller as a pure function over that state.  Optional record fields
model document fields that may be absent from a stored document (`none` =
field missing).  Document `_id` values are modelled as `Nat`; the
`isValidObjectId` guards of the controllers are not modelled because every
`Nat` id in the embedding is a well-formed id by construction.
-/

set_option autoImplicit false

namespace Backend

/-- A persisted `Like` document (src/models + like.controller.js).
Exactly the fields that the three toggle controllers ever write: the
video/comment/tweet target reference and the user reference, which the
controllers store under `likedBy`, `commentedBy` or `tweetedBy`. -/
structure LikeRec where
  id : Nat
  video : Option Nat := none
  comment : Option Nat := none
  tweet : Option Nat := none
  likedBy : Option Nat := none
  commentedBy : Option Nat := none
  tweetedBy : Option Nat := none
deriving DecidableEq, Repr

/-- The `likes` collection plus the id generator of the store. -/
structure LikeStore where
  likes : List LikeRec
  nextId : Nat
deriving DecidableEq, Repr

/-- The `Like.findOne({video, likedBy})` filter of `toggleVideoLike`. -/
def videoPairP (u v : Nat) (r : LikeRec) : Bool :=
  r.video == some v && r.likedBy == some u

/-- The `Like.findOne({comment, commentedBy})` filter of `toggleCommentLike`. -/
def commentPairP (u c : Nat) (r : LikeRec) : Bool :=
  r.comment == some c && r.commentedBy == some u

/-- The `Like.findOne({tweet, tweetedBy})` filter of `toggleTweetLike`. -/
def tweetPairP (u t : Nat) (r : LikeRec) : Bool :=
  r.tweet == some t && r.tweetedBy == some u

/-- The JSON body a toggle controller sends: HTTP status plus the single
boolean data field, whose NAME differs between the three controllers
(`isLiked` / `isCommented` / `isTweeted`). -/
structure ToggleResponse where
  status : Nat
  flagField : String
  flagValue : Bool
deriving DecidableEq, Repr

/-- `Model.findByIdAndDelete(id)`: deletes the (unique) document with the
given `_id`; modelled as erasing the first record carrying that id. -/
def findByIdAndDelete (i : Nat) (l : List LikeRec) : List LikeRec :=
  l.eraseP (fun r => r.id == i)

/-- Common body of the three toggle controllers
(like.controller.js, `toggleVideoLike` / `toggleCommentLike` /
`toggleTweetLike` differ only in the findOne filter, the created document
and the response field name): `findOne`; if found, `findByIdAndDelete` and
report `false`; else `create` and report `true`.  All three respond with
HTTP 200. -/
def toggleLike (pairP : LikeRec → Bool) (mkRec : Nat → LikeRec) (flag : String)
    (s : LikeStore) : LikeStore × ToggleResponse :=
  match s.likes.find? pairP with
  | some likedAlready =>
      (⟨findByIdAndDelete likedAlready.id s.likes, s.nextId⟩, ⟨200, flag, false⟩)
  | none =>
      (⟨s.likes ++ [mkRec s.nextId], s.nextId + 1⟩, ⟨200, flag, true⟩)

/-- like.controller.js lines 21-47. -/
def toggleVideoLike (u v : Nat) (s : LikeStore) : LikeStore × ToggleResponse :=
  toggleLike (videoPairP u v) (fun i => { id := i, video := some v, likedBy := some u })
    "isLiked" s

/-- like.controller.js lines 52-78: the created document stores the user
under `commentedBy`, and the response flag is named `isCommented`. -/
def toggleCommentLike (u c : Nat) (s : LikeStore) : LikeStore × ToggleResponse :=
  toggleLike (commentPairP u c) (fun i => { id := i, comment := some c, commentedBy := some u })
    "isCommented" s

/-- like.controller.js lines 83-109: the created document stores the user
under `tweetedBy`, and the response flag is named `isTweeted`. -/
def toggleTweetLike (u t : Nat) (s : LikeStore) : LikeStore × ToggleResponse :=
  toggleLike (tweetPairP u t) (fun i => { id := i, tweet := some t, tweetedBy := some u })
    "isTweeted" s

/-- Store sanity: `_id`s are pairwise distinct (Mongo primary key) and the
id generator is fresh. -/
def WFStore (s : LikeStore) : Prop :=
  (s.likes.map LikeRec.id).Nodup ∧ ∀ r ∈ s.likes, r.id < s.nextId

instance (s : LikeStore) : Decidable (WFStore s) := by
  unfold WFStore; infer_instance

/-- Number of stored like records matching a findOne filter. -/
def pairCount (p : LikeRec → Bool) (s : LikeStore) : Nat :=
  s.likes.countP p

/-- The liked / not-liked state of a pair: presence of a matching record. -/
def pairLiked (p : LikeRec → Bool) (s : LikeStore) : Bool :=
  (s.likes.find? p).isSome

/-- The `ApiError(statusCode, message)` a controller throws. -/
structure ApiError where
  status : Nat
  message : String
deriving DecidableEq, Repr

/-- §7 taxonomy: a non-owner mutation attempt; the source uses both 400 and
403 for it. -/
def ForbiddenKind (e : ApiError) : Prop :=
  e.status = 400 ∨ e.status = 403

instance (e : ApiError) : Decidable (ForbiddenKind e) := by
  unfold ForbiddenKind; infer_instance

/-- The success envelope `res.status(h).json(new ApiResponse(c, data, m))`. -/
structure ApiSuccess (α : Type) where
  httpStatus : Nat
  statusCode : Nat
  data : α
  message : String
deriving DecidableEq, Repr

/-- A persisted `Tweet` document.  `createdAt` stands for the mongoose
timestamp; creation time values are not modelled and default to 0. -/
structure TweetRec where
  id : Nat
  content : String
  owner : Nat
  createdAt : Nat := 0
deriving DecidableEq, Repr

/-- A persisted `Comment` document. -/
structure CommentRec where
  id : Nat
  content : String
  video : Nat
  owner : Nat
  createdAt : Nat := 0
deriving DecidableEq, Repr

/-- A persisted `Playlist` document. -/
structure PlaylistRec where
  id : Nat
  name : String
  description : String
  owner : Nat
  videos : List Nat
deriving DecidableEq, Repr

/-- A persisted `Video` document (the fields the claims touch). -/
structure VideoRec where
  id : Nat
  owner : Nat
  views : Nat
  isPublished : Bool := true
deriving DecidableEq, Repr

/-- A persisted `Subscription` document. -/
structure SubscriptionRec where
  id : Nat
  channel : Nat
  subscriber : Nat
deriving DecidableEq, Repr

/-- tweet.controller.js `createTweet` (lines 9-30): reject empty content
with 400, else create `{content, owner: req.user._id}` and answer
`res.status(200)` with `ApiResponse(200, tweet, ...)`.  The `if (!tweet)`
500 guard is unreachable (`create` resolves with the document) and not
modelled. -/
def createTweet (caller : Nat) (content : String) (tweets : List TweetRec) (nextId : Nat) :
    List TweetRec × Except ApiError (ApiSuccess TweetRec) :=
  if content = "" then (tweets, .error ⟨400, "Content is required"⟩)
  else
    let tweet : TweetRec := ⟨nextId, content, caller, 0⟩
    (tweets ++ [tweet], .ok ⟨200, 200, tweet, "Tweet created successfully"⟩)

/-- tweet.controller.js `updateTweet` (lines 33-75): empty content 400;
missing tweet 404; non-owner 400; else `findByIdAndUpdate` setting the
content. -/
def updateTweet (caller tweetId : Nat) (content : String) (tweets : List TweetRec) :
    List TweetRec × Except ApiError (ApiSuccess TweetRec) :=
  if content = "" then (tweets, .error ⟨400, "Content is required"⟩)
  else
    match tweets.find? (fun t => t.id == tweetId) with
    | none => (tweets, .error ⟨404, "Tweet not found"⟩)
    | some tweet =>
      if tweet.owner ≠ caller then
        (tweets, .error ⟨400, "Only the owner can edit their tweet"⟩)
      else
        (tweets.map (fun t => if t.id == tweetId then { t with content := content } else t),
         .ok ⟨200, 200, { tweet with content := content }, "Tweet updated successfully"⟩)

/-- tweet.controller.js `deleteTweet` (lines 78-104). -/
def deleteTweet (caller tweetId : Nat) (tweets : List TweetRec) :
    List TweetRec × Except ApiError (ApiSuccess Nat) :=
  match tweets.find? (fun t => t.id == tweetId) with
  | none => (tweets, .error ⟨404, "Tweet not found"⟩)
  | some tweet =>
    if tweet.owner ≠ caller then
      (tweets, .error ⟨400, "Only the owner can delete their tweet"⟩)
    else
      (tweets.eraseP (fun t => t.id == tweetId),
       .ok ⟨200, 200, tweetId, "Tweet deleted successfully"⟩)

/-- comment controller `updateComment`: empty content 400; missing comment
404; non-owner 403; else update the content. -/
def updateComment (caller commentId : Nat) (content : String) (comments : List CommentRec) :
    List CommentRec × Except ApiError (ApiSuccess CommentRec) :=
  if content = "" then (comments, .error ⟨400, "Content is required"⟩)
  else
    match comments.find? (fun c => c.id == commentId) with
    | none => (comments, .error ⟨404, "Comment not found"⟩)
    | some comment =>
      if comment.owner ≠ caller then
        (comments, .error ⟨403, "Only the comment owner can update this comment"⟩)
      else
        (comments.map (fun c => if c.id == commentId then { c with content := content } else c),
         .ok ⟨200, 200, { comment with content := content }, "Comment updated successfully"⟩)

/-- comment controller `deleteComment`: missing comment 404; non-owner 403;
else delete.  The follow-up `Comment.deleteMany({comment, likedBy})` runs
against the comments collection, whose documents carry no such fields, so
it matches nothing and is a no-op in the model. -/
def deleteComment (caller commentId : Nat) (comments : List CommentRec) :
    List CommentRec × Except ApiError (ApiSuccess Nat) :=
  match comments.find? (fun c => c.id == commentId) with
  | none => (comments, .error ⟨404, "Comment not found"⟩)
  | some comment =>
    if comment.owner ≠ caller then
      (comments, .error ⟨403, "Only the comment owner can delete this comment"⟩)
    else
      (comments.eraseP (fun c => c.id == commentId),
       .ok ⟨200, 200, commentId, "Comment deleted successfully"⟩)

/-- playlist.controller.js `updatePlaylist` (lines 36-74): missing
name/description 400; missing playlist 404; non-owner 400; else update. -/
def updatePlaylist (caller playlistId : Nat) (name description : String)
    (playlists : List PlaylistRec) :
    List PlaylistRec × Except ApiError (ApiSuccess PlaylistRec) :=
  if name = "" ∨ description = "" then
    (playlists, .error ⟨400, "Name and description are required"⟩)
  else
    match playlists.find? (fun p => p.id == playlistId) with
    | none => (playlists, .error ⟨404, "Playlist not found"⟩)
    | some playlist =>
      if playlist.owner ≠ caller then
        (playlists, .error ⟨400, "Only the owner can edit the playlist"⟩)
      else
        (playlists.map (fun p =>
            if p.id == playlistId then { p with name := name, description := description } else p),
         .ok ⟨200, 200, { playlist with name := name, description := description },
           "Playlist updated successfully"⟩)

/-- playlist.controller.js `deletePlaylist` (lines 77-105). -/
def deletePlaylist (caller playlistId : Nat) (playlists : List PlaylistRec) :
    List PlaylistRec × Except ApiError (ApiSuccess Unit) :=
  match playlists.find? (fun p => p.id == playlistId) with
  | none => (playlists, .error ⟨404, "Playlist not found"⟩)
  | some playlist =>
    if playlist.owner ≠ caller then
      (playlists, .error ⟨400, "Only the owner can delete the playlist"⟩)
    else
      (playlists.eraseP (fun p => p.id == playlistId),
       .ok ⟨200, 200, (), "Playlist deleted successfully"⟩)

/-- `$addToSet`: append the value unless it is already a member. -/
def addToSet (v : Nat) (l : List Nat) : List Nat :=
  if v ∈ l then l else l ++ [v]

/-- playlist.controller.js `addVideoToPlaylist` (lines 108-144): missing
playlist 404, then missing video 404, then non-owner 400; else
`findByIdAndUpdate` with `$addToSet: {videos: videoId}`. -/
def addVideoToPlaylist (caller playlistId videoId : Nat)
    (playlists : List PlaylistRec) (videos : List VideoRec) :
    List PlaylistRec × Except ApiError (ApiSuccess PlaylistRec) :=
  match playlists.find? (fun p => p.id == playlistId) with
  | none => (playlists, .error ⟨404, "Playlist not found"⟩)
  | some playlist =>
    match videos.find? (fun v => v.id == videoId) with
    | none => (playlists, .error ⟨404, "Video not found"⟩)
    | some _ =>
      if playlist.owner ≠ caller then
        (playlists, .error ⟨400, "Only the owner can add videos to their playlist"⟩)
      else
        (playlists.map (fun p =>
            if p.id == playlistId then { p with videos := addToSet videoId p.videos } else p),
         .ok ⟨200, 200, { playlist with videos := addToSet videoId playlist.videos },
           "Video added to playlist successfully"⟩)

/-- dashbord.controller.js `getTotalSubscribers` (lines 24-30): `$match` on
the channel, `$group` counting with `$sum: 1`; an empty match produces an
empty aggregation result and `result[0]?.subscribersCount || 0` defaults
to 0. -/
def getTotalSubscribers (userId : Nat) (subs : List SubscriptionRec) : Nat :=
  match subs.filter (fun r => r.channel == userId) with
  | [] => 0
  | matched => matched.length

/-- The `$group` result of `getVideoStats`. -/
structure VideoStats where
  totalLikes : Nat
  totalViews : Nat
  totalVideos : Nat
deriving DecidableEq, Repr

/-- dashbord.controller.js `getVideoStats` (lines 37-69): `$match` videos
by owner, `$lookup` likes per video, `$project` per-video like count and
views, `$group` summing; `result[0]?.x || 0` defaults each field to 0 when
the owner has no videos. -/
def getVideoStats (userId : Nat) (videos : List VideoRec) (likes : List LikeRec) : VideoStats :=
  match videos.filter (fun v => v.owner == userId) with
  | [] => ⟨0, 0, 0⟩
  | matched =>
    { totalLikes := (matched.map
        (fun v => (likes.filter (fun r => r.video == some v.id)).length)).sum
      totalViews := (matched.map (fun v => v.views)).sum
      totalVideos := matched.length }

/-- dashbord.controller.js `getChannelStats` (lines 74-89): the response
object `{totalSubscribers, ...videoStats}` as an ordered key/value list —
these are the actual response keys. -/
def getChannelStats (userId : Nat) (subs : List SubscriptionRec)
    (videos : List VideoRec) (likes : List LikeRec) : List (String × Nat) :=
  let totalSubscribers := getTotalSubscribers userId subs
  let vs := getVideoStats userId videos likes
  [("totalSubscribers", totalSubscribers), ("totalLikes", vs.totalLikes),
   ("totalViews", vs.totalViews), ("totalVideos", vs.totalVideos)]

/-- Insertion step of the `$sort: {createdAt: -1}` stage (descending,
stable). -/
def insertByKeyDesc {α : Type} (key : α → Nat) (a : α) : List α → List α
  | [] => [a]
  | b :: t => if key b ≤ key a then a :: b :: t else b :: insertByKeyDesc key a t

/-- The `$sort: {createdAt: -1}` stage as an insertion sort. -/
def sortByKeyDesc {α : Type} (key : α → Nat) : List α → List α
  | [] => []
  | a :: t => insertByKeyDesc key a (sortByKeyDesc key t)

/-- The `likedBy` values of a joined like array (`"$likes.likedBy"`):
documents without the field contribute nothing. -/
def likedByValues (likes : List LikeRec) : List Nat :=
  likes.filterMap (fun r => r.likedBy)

/-- The `$in: [req.user?._id, "$likes.likedBy"]` membership test.  An
unauthenticated request contributes `undefined`, which the driver
serializes as null; null matches no stored ObjectId, so the test resolves
to false instead of throwing. -/
def inLikedBy (currentUser : Option Nat) (likes : List LikeRec) : Bool :=
  match currentUser with
  | none => false
  | some uid => (likedByValues likes).contains uid

/-- A row of the `getUserTweets` projection (`ownerDetails` sub-projection
carries no data the claims touch and is omitted). -/
structure TweetView where
  content : String
  createdAt : Nat
  likesCount : Nat
  isLiked : Bool
deriving DecidableEq, Repr

/-- The `$addFields`/`$project` stages of `getUserTweets` applied to one
tweet: join the likes of the tweet, count them, and test membership of the
current user in their `likedBy` values. -/
def tweetViewOf (currentUser : Option Nat) (likes : List LikeRec) (t : TweetRec) : TweetView :=
  let likeDetails := likes.filter (fun r => r.tweet == some t.id)
  { content := t.content, createdAt := t.createdAt,
    likesCount := likeDetails.length,
    isLiked := inLikedBy currentUser likeDetails }

/-- tweet.controller.js `getUserTweets` (lines 107-189): `$match` tweets by
owner, joins, derived fields, `$sort` by createdAt descending, `$project`. -/
def getUserTweets (userId : Nat) (currentUser : Option Nat)
    (tweets : List TweetRec) (likes : List LikeRec) : List TweetView :=
  (sortByKeyDesc (fun t => t.createdAt) (tweets.filter (fun t => t.owner == userId))).map
    (tweetViewOf currentUser likes)

/-- A row of the `getVideoComments` projection. -/
structure CommentView where
  content : String
  createdAt : Nat
  likesCount : Nat
  isLiked : Bool
deriving DecidableEq, Repr

/-- The `$addFields`/`$project` stages of `getVideoComments` applied to one
comment. -/
def commentViewOf (currentUser : Option Nat) (likes : List LikeRec) (c : CommentRec) : CommentView :=
  let commentLikes := likes.filter (fun r => r.comment == some c.id)
  { content := c.content, createdAt := c.createdAt,
    likesCount := commentLikes.length,
    isLiked := inLikedBy currentUser commentLikes }

/-- Modelled from the spec: the `aggregatePaginate` plugin applied by
`getVideoComments` is an external library whose code is not in the
repository; spec §4.1 defines pagination as a generic post-aggregation
stage, skip `(page-1)*limit` then take `limit`. -/
def paginate {α : Type} (page limit : Nat) (l : List α) : List α :=
  (l.drop ((page - 1) * limit)).take limit

/-- comment controller `getVideoComments`: 404 when the video is absent;
else `$match` comments by video, join likes, derived fields, `$sort` by
createdAt descending, `$project`, then paginate. -/
def getVideoComments (videoId page limit : Nat) (currentUser : Option Nat)
    (videos : List VideoRec) (comments : List CommentRec) (likes : List LikeRec) :
    Except ApiError (List CommentView) :=
  match videos.find? (fun v => v.id == videoId) with
  | none => .error ⟨404, "Video not found"⟩
  | some _ =>
    .ok (paginate page limit
      ((sortByKeyDesc (fun c => c.createdAt) (comments.filter (fun c => c.video == videoId))).map
        (commentViewOf currentUser likes)))

/-- like.controller.js `getLikedVideos` (lines 114-176): `$match` likes by
`likedBy` = the current user's id, `$lookup` the liked video and `$unwind`
it (a like whose video lookup is empty is dropped).  The nested
owner-details join, sort and projection reshape rows only and are
omitted. -/
def getLikedVideos (uid : Nat) (likes : List LikeRec) (videos : List VideoRec) :
    List VideoRec :=
  (likes.filter (fun r => r.likedBy == some uid)).filterMap
    (fun r => r.video.bind (fun vid => videos.find? (fun v => v.id == vid)))

/-- A persisted `User` document (the authentication-relevant fields;
`password` holds the stored hash). -/
structure UserRec where
  id : Nat
  userName : String
  email : String
  password : String
deriving DecidableEq, Repr

/-- user.model.js lines 64-66: `isPasswordCorrect` awaits `bcrypt.compare`
but never returns its result, so the async method always resolves with
undefined (`none`), whatever the comparison function computes. -/
def isPasswordCorrect (compare : String → String → Bool) (password stored : String) :
    Option Bool :=
  let _ := compare password stored
  none

/-- JS truthiness of the awaited comparison result. -/
def truthy (o : Option Bool) : Bool :=
  match o with
  | none => false
  | some b => b

/-- JS truthiness of a request body field that may be absent or empty. -/
def truthyStr (o : Option String) : Bool :=
  match o with
  | none => false
  | some s => !(s == "")

/-- The data `loginUser` would answer on success. -/
structure LoginOk where
  statusCode : Nat
  userId : Nat
deriving DecidableEq, Repr

/-- `loginUser` (user controller, lines 103-159): the `!userName || !email`
guard demands BOTH fields; find the user by either; check the password via
`isPasswordCorrect` and answer 401 on a falsy result.  The success
continuation (token generation, cookies) is modelled as a bare success
value; the password check makes it unreachable. -/
def loginUser (compare : String → String → Bool) (userName email : Option String)
    (password : String) (users : List UserRec) : Except ApiError LoginOk :=
  if !(truthyStr userName) || !(truthyStr email) then
    .error ⟨400, "UserName or Email Required"⟩
  else
    match users.find? (fun u => some u.userName == userName || some u.email == email) with
    | none => .error ⟨404, "User does not exists"⟩
    | some user =>
      if truthy (isPasswordCorrect compare password user.password) then
        .ok ⟨200, user.id⟩
      else
        .error ⟨401, "Invalid user credentials"⟩

theorem find?_append_of_none {α : Type} (p : α → Bool) (l₁ l₂ : List α)
    (h : l₁.find? p = none) : (l₁ ++ l₂).find? p = l₂.find? p := by
  induction l₁ with
  | nil => rfl
  | cons a t ih =>
    by_cases hpa : p a = true
    · rw [List.find?_cons_of_pos _ hpa] at h
      simp at h
    · rw [List.find?_cons_of_neg _ hpa] at h
      rw [List.cons_append, List.find?_cons_of_neg _ hpa]
      exact ih h

theorem eraseP_append_of_none {α : Type} (q : α → Bool) (l₁ l₂ : List α)
    (h : ∀ x ∈ l₁, ¬ q x) : (l₁ ++ l₂).eraseP q = l₁ ++ l₂.eraseP q := by
  induction l₁ with
  | nil => rfl
  | cons a t ih =>
    have hqa : q a = false := by
      have := h a (by simp)
      simpa using this
    rw [List.cons_append, List.eraseP_cons, hqa]
    simp only [cond_false, List.cons_append]
    rw [ih (fun x hx => h x (by simp [hx]))]

theorem countP_eraseP_eq_zero {α : Type} (p q : α → Bool) (l : List α) (a : α)
    (ha : a ∈ l) (hqa : q a = true) (hpa : p a = true)
    (huniq : ∀ b ∈ l, q b = true → b = a) (hc : l.countP p = 1) :
    (l.eraseP q).countP p = 0 := by
  induction l with
  | nil => cases ha
  | cons b t ih =>
    rw [List.eraseP_cons]
    by_cases hqb : q b = true
    · have hba : b = a := huniq b (by simp) hqb
      subst hba
      rw [hqb]
      simp only [cond_true]
      rw [List.countP_cons, if_pos hpa] at hc
      omega
    · have hqb' : q b = false := by simpa using hqb
      rw [hqb']
      simp only [cond_false, List.countP_cons]
      have hab : a ≠ b := fun h => hqb (h ▸ hqa)
      have hat : a ∈ t := by
        cases ha with
        | head => exact absurd rfl hab
        | tail _ h => exact h
      have hpos : 0 < t.countP p :=
        List.countP_pos_iff.mpr ⟨a, hat, hpa⟩
      rw [List.countP_cons] at hc
      by_cases hpb : p b = true
      · rw [if_pos hpb] at hc
        omega
      · rw [if_neg hpb] at hc
        have hct : t.countP p = 1 := by omega
        rw [ih hat (fun b hb hqb => huniq b (by simp [hb]) hqb) hct]
        rw [if_neg hpb]

theorem count_one_of_find?_some (p : LikeRec → Bool) (s : LikeStore) (r : LikeRec)
    (hfind : s.likes.find? p = some r) (hinv : pairCount p s ≤ 1) :
    pairCount p s = 1 := by
  have hr : r ∈ s.likes := List.mem_of_find?_eq_some hfind
  have hpr : p r = true := List.find?_some hfind
  have : 0 < s.likes.countP p := List.countP_pos_iff.mpr ⟨r, hr, hpr⟩
  unfold pairCount at hinv ⊢
  omega

theorem countP_delete_eq_zero (p : LikeRec → Bool) (s : LikeStore) (r : LikeRec)
    (hids : (s.likes.map LikeRec.id).Nodup)
    (hfind : s.likes.find? p = some r) (hinv : pairCount p s ≤ 1) :
    (findByIdAndDelete r.id s.likes).countP p = 0 := by
  have hr : r ∈ s.likes := List.mem_of_find?_eq_some hfind
  have hpr : p r = true := List.find?_some hfind
  have hc : s.likes.countP p = 1 := count_one_of_find?_some p s r hfind hinv
  apply countP_eraseP_eq_zero p _ s.likes r hr (by simp) hpr _ hc
  intro b hb hqb
  have hid : b.id = r.id := by simpa using hqb
  exact List.inj_on_of_nodup_map hids hb hr (by simpa using hid)

theorem countP_eq_zero_of_find?_none (p : LikeRec → Bool) (l : List LikeRec)
    (h : l.find? p = none) : l.countP p = 0 := by
  rw [List.countP_eq_zero]
  exact fun a ha hpa => (List.find?_eq_none.mp h a ha) hpa

theorem find?_none_of_countP_zero (p : LikeRec → Bool) (l : List LikeRec)
    (h : l.countP p = 0) : l.find? p = none := by
  rw [List.find?_eq_none]
  exact fun a ha hpa => (List.countP_eq_zero.mp h a ha) hpa

/-- One toggle step, generically over the three controllers: when the pair
is liked the matching record is deleted (its count drops to zero) and the
response flag is `false`; when it is not liked one record is created and
the flag is `true`.  The response field carries the controller's own flag
name. -/
theorem toggleLike_step (pairP : LikeRec → Bool) (mkRec : Nat → LikeRec) (flag : String)
    (s : LikeStore) (hids : (s.likes.map LikeRec.id).Nodup)
    (hinv : pairCount pairP s ≤ 1)
    (hmk : pairP (mkRec s.nextId) = true) :
    (pairLiked pairP s = true →
      pairCount pairP (toggleLike pairP mkRec flag s).1 = 0 ∧
      (toggleLike pairP mkRec flag s).2 = ⟨200, flag, false⟩) ∧
    (pairLiked pairP s = false →
      pairCount pairP (toggleLike pairP mkRec flag s).1 = pairCount pairP s + 1 ∧
      (toggleLike pairP mkRec flag s).2 = ⟨200, flag, true⟩) := by
  cases hfind : s.likes.find? pairP with
  | none =>
    have hstep : toggleLike pairP mkRec flag s
        = (⟨s.likes ++ [mkRec s.nextId], s.nextId + 1⟩, ⟨200, flag, true⟩) := by
      unfold toggleLike
      rw [hfind]
    constructor
    · intro h
      rw [pairLiked, hfind] at h
      simp at h
    · intro _
      rw [hstep]
      constructor
      · show (s.likes ++ [mkRec s.nextId]).countP pairP = pairCount pairP s + 1
        rw [List.countP_append, List.countP_cons]
        simp [hmk, pairCount]
      · rfl
  | some r =>
    have hstep : toggleLike pairP mkRec flag s
        = (⟨findByIdAndDelete r.id s.likes, s.nextId⟩, ⟨200, flag, false⟩) := by
      unfold toggleLike
      rw [hfind]
    constructor
    · intro _
      rw [hstep]
      exact ⟨countP_delete_eq_zero pairP s r hids hfind hinv, rfl⟩
    · intro h
      rw [pairLiked, hfind] at h
      simp at h

/-- C1: toggling a like twice in sequence on the same (user, video) pair is
a net no-op: the number of stored like records for the pair and the pair's
liked/not-liked state both return to their original values.  Hypotheses:
the store is well formed (distinct ids, fresh id generator) and the
at-most-one-like-per-pair invariant of the data model holds for the pair. -/
theorem toggleVideoLike_twice_noop (u v : Nat) (s : LikeStore)
    (hwf : WFStore s) (hinv : pairCount (videoPairP u v) s ≤ 1) :
    pairCount (videoPairP u v) ((toggleVideoLike u v ((toggleVideoLike u v s).1)).1)
      = pairCount (videoPairP u v) s ∧
    pairLiked (videoPairP u v) ((toggleVideoLike u v ((toggleVideoLike u v s).1)).1)
      = pairLiked (videoPairP u v) s := by
  obtain ⟨hids, hfresh⟩ := hwf
  have hmk : videoPairP u v ({ id := s.nextId, video := some v, likedBy := some u } : LikeRec) = true := by
    simp [videoPairP]
  cases hfind : s.likes.find? (videoPairP u v) with
  | none =>
    -- not liked: the first toggle creates a fresh record, the second finds
    -- exactly that record and deletes it, restoring the original list.
    have h1 : toggleVideoLike u v s
        = (⟨s.likes ++ [({ id := s.nextId, video := some v, likedBy := some u } : LikeRec)], s.nextId + 1⟩,
           ⟨200, "isLiked", true⟩) := by
      unfold toggleVideoLike toggleLike
      rw [hfind]
    rw [h1]
    have hfind2 : (s.likes ++ [({ id := s.nextId, video := some v, likedBy := some u } : LikeRec)]).find?
        (videoPairP u v) = some ({ id := s.nextId, video := some v, likedBy := some u } : LikeRec) := by
      rw [find?_append_of_none _ _ _ hfind]
      exact List.find?_cons_of_pos _ hmk
    have h2 : toggleVideoLike u v
        (⟨s.likes ++ [({ id := s.nextId, video := some v, likedBy := some u } : LikeRec)], s.nextId + 1⟩ : LikeStore)
        = (⟨findByIdAndDelete s.nextId
              (s.likes ++ [({ id := s.nextId, video := some v, likedBy := some u } : LikeRec)]), s.nextId + 1⟩,
           ⟨200, "isLiked", false⟩) := by
      unfold toggleVideoLike toggleLike
      rw [hfind2]
    rw [h2]
    have h3 : findByIdAndDelete s.nextId
        (s.likes ++ [({ id := s.nextId, video := some v, likedBy := some u } : LikeRec)]) = s.likes := by
      unfold findByIdAndDelete
      rw [eraseP_append_of_none]
      · simp [List.eraseP_cons]
      · intro x hx
        have := hfresh x hx
        simp
        omega
    rw [h3]
    exact ⟨rfl, rfl⟩
  | some r =>
    -- liked: the first toggle deletes the matching record, leaving no
    -- match, and the second re-creates one.
    have hc1 : pairCount (videoPairP u v) s = 1 :=
      count_one_of_find?_some _ s r hfind hinv
    have h1 : toggleVideoLike u v s
        = (⟨findByIdAndDelete r.id s.likes, s.nextId⟩, ⟨200, "isLiked", false⟩) := by
      unfold toggleVideoLike toggleLike
      rw [hfind]
    rw [h1]
    have hz : (findByIdAndDelete r.id s.likes).countP (videoPairP u v) = 0 :=
      countP_delete_eq_zero _ s r hids hfind hinv
    have hfind2 : (findByIdAndDelete r.id s.likes).find? (videoPairP u v) = none :=
      find?_none_of_countP_zero _ _ hz
    have h2 : toggleVideoLike u v (⟨findByIdAndDelete r.id s.likes, s.nextId⟩ : LikeStore)
        = (⟨findByIdAndDelete r.id s.likes
              ++ [({ id := s.nextId, video := some v, likedBy := some u } : LikeRec)], s.nextId + 1⟩,
           ⟨200, "isLiked", true⟩) := by
      unfold toggleVideoLike toggleLike
      rw [hfind2]
    rw [h2]
    constructor
    · show (findByIdAndDelete r.id s.likes
          ++ [({ id := s.nextId, video := some v, likedBy := some u } : LikeRec)]).countP (videoPairP u v)
        = pairCount (videoPairP u v) s
      rw [List.countP_append, hz, hc1, List.countP_cons]
      simp [hmk]
    · show ((findByIdAndDelete r.id s.likes
          ++ [({ id := s.nextId, video := some v, likedBy := some u } : LikeRec)]).find?
            (videoPairP u v)).isSome = pairLiked (videoPairP u v) s
      rw [find?_append_of_none _ _ _ hfind2, List.find?_cons_of_pos _ hmk,
        pairLiked, hfind]
      rfl

/-- Closed instance of `toggleVideoLike_twice_noop` on a store holding one
like for the pair (user 1, video 2). -/
theorem toggleVideoLike_twice_noop_witness :
    WFStore ⟨[⟨0, some 2, none, none, some 1, none, none⟩], 1⟩ ∧
    pairCount (videoPairP 1 2) ⟨[⟨0, some 2, none, none, some 1, none, none⟩], 1⟩ ≤ 1 ∧
    (pairCount (videoPairP 1 2)
        ((toggleVideoLike 1 2 ((toggleVideoLike 1 2
          (⟨[⟨0, some 2, none, none, some 1, none, none⟩], 1⟩ : LikeStore)).1)).1)
      = pairCount (videoPairP 1 2) ⟨[⟨0, some 2, none, none, some 1, none, none⟩], 1⟩ ∧
    pairLiked (videoPairP 1 2)
        ((toggleVideoLike 1 2 ((toggleVideoLike 1 2
          (⟨[⟨0, some 2, none, none, some 1, none, none⟩], 1⟩ : LikeStore)).1)).1)
      = pairLiked (videoPairP 1 2) ⟨[⟨0, some 2, none, none, some 1, none, none⟩], 1⟩) :=
  ⟨by decide, by decide, toggleVideoLike_twice_noop 1 2 _ (by decide) (by decide)⟩

/-- C2 counterexample: the claim reports the toggle result under
`isLiked`, but `toggleTweetLike` (named by the claim's sources) answers
under `isTweeted`, and the record it creates keys the user under
`tweetedBy` with `likedBy` unset. -/
theorem toggleTweetLike_not_isLiked :
    (toggleTweetLike 1 2 (⟨[], 0⟩ : LikeStore)).2.flagField = "isTweeted" ∧
    (toggleTweetLike 1 2 (⟨[], 0⟩ : LikeStore)).2.flagField ≠ "isLiked" ∧
    (toggleTweetLike 1 2 (⟨[], 0⟩ : LikeStore)).1.likes
      = [⟨0, none, none, some 2, none, none, some 1⟩] := by
  decide

/-- C2 (amended): a single toggle reads the state by an existence query;
if a record for the pair exists it is deleted and the flag is reported
false, else one record is created and the flag is reported true — where
the flag is named `isLiked` by the video toggle but `isTweeted` by the
tweet toggle, whose pair is keyed by `tweetedBy`. -/
theorem toggle_single_step_video_tweet (u t : Nat) (s : LikeStore)
    (hids : (s.likes.map LikeRec.id).Nodup)
    (hinvV : pairCount (videoPairP u t) s ≤ 1)
    (hinvT : pairCount (tweetPairP u t) s ≤ 1) :
    ((pairLiked (videoPairP u t) s = true →
        pairCount (videoPairP u t) (toggleVideoLike u t s).1 = 0 ∧
        (toggleVideoLike u t s).2 = ⟨200, "isLiked", false⟩) ∧
     (pairLiked (videoPairP u t) s = false →
        pairCount (videoPairP u t) (toggleVideoLike u t s).1
          = pairCount (videoPairP u t) s + 1 ∧
        (toggleVideoLike u t s).2 = ⟨200, "isLiked", true⟩)) ∧
    ((pairLiked (tweetPairP u t) s = true →
        pairCount (tweetPairP u t) (toggleTweetLike u t s).1 = 0 ∧
        (toggleTweetLike u t s).2 = ⟨200, "isTweeted", false⟩) ∧
     (pairLiked (tweetPairP u t) s = false →
        pairCount (tweetPairP u t) (toggleTweetLike u t s).1
          = pairCount (tweetPairP u t) s + 1 ∧
        (toggleTweetLike u t s).2 = ⟨200, "isTweeted", true⟩)) := by
  constructor
  · exact toggleLike_step (videoPairP u t) _ "isLiked" s hids hinvV (by simp [videoPairP])
  · exact toggleLike_step (tweetPairP u t) _ "isTweeted" s hids hinvT (by simp [tweetPairP])

/-- Closed instance of `toggle_single_step_video_tweet` on a store where
(user 1, video 2) is liked and (user 1, tweet 2) is not. -/
theorem toggle_single_step_witness :
    pairCount (videoPairP 1 2)
        (toggleVideoLike 1 2 (⟨[⟨0, some 2, none, none, some 1, none, none⟩], 1⟩ : LikeStore)).1 = 0 ∧
    (toggleVideoLike 1 2 (⟨[⟨0, some 2, none, none, some 1, none, none⟩], 1⟩ : LikeStore)).2
      = ⟨200, "isLiked", false⟩ ∧
    pairCount (tweetPairP 1 2)
        (toggleTweetLike 1 2 (⟨[⟨0, some 2, none, none, some 1, none, none⟩], 1⟩ : LikeStore)).1 = 1 ∧
    (toggleTweetLike 1 2 (⟨[⟨0, some 2, none, none, some 1, none, none⟩], 1⟩ : LikeStore)).2
      = ⟨200, "isTweeted", true⟩ := by
  have h := toggle_single_step_video_tweet 1 2
    ⟨[⟨0, some 2, none, none, some 1, none, none⟩], 1⟩ (by decide) (by decide) (by decide)
  have hv := h.1.1 (by decide)
  have ht := h.2.2 (by decide)
  refine ⟨hv.1, hv.2, ?_, ht.2⟩
  rw [ht.1]
  decide

/-- C3 counterexample: the response object of `getChannelStats` carries no
`subscriberCount` or `totalVideoCount` key; its keys are
`totalSubscribers`, `totalLikes`, `totalViews`, `totalVideos`. -/
theorem getChannelStats_keys_counterexample :
    (getChannelStats 0 [] [] []).lookup "subscriberCount" = none ∧
    (getChannelStats 0 [] [] []).lookup "totalVideoCount" = none ∧
    getChannelStats 0 [] [] []
      = [("totalSubscribers", 0), ("totalLikes", 0), ("totalViews", 0), ("totalVideos", 0)] := by
  decide

/-- C3 (amended): for an authenticated owner with zero subscriptions and
zero videos, `getChannelStats` succeeds and returns the all-zero object
`{totalSubscribers: 0, totalLikes: 0, totalViews: 0, totalVideos: 0}` —
zero-valued defaults, never null, never an error. -/
theorem getChannelStats_zero (userId : Nat) (subs : List SubscriptionRec)
    (videos : List VideoRec) (likes : List LikeRec)
    (hs : ∀ r ∈ subs, r.channel ≠ userId)
    (hv : ∀ v ∈ videos, v.owner ≠ userId) :
    getChannelStats userId subs videos likes
      = [("totalSubscribers", 0), ("totalLikes", 0), ("totalViews", 0), ("totalVideos", 0)] := by
  have h1 : subs.filter (fun r => r.channel == userId) = [] := by
    rw [List.filter_eq_nil_iff]
    intro a ha
    simpa using hs a ha
  have h2 : videos.filter (fun v => v.owner == userId) = [] := by
    rw [List.filter_eq_nil_iff]
    intro a ha
    simpa using hv a ha
  unfold getChannelStats getTotalSubscribers getVideoStats
  rw [h1, h2]

/-- Closed instance of `getChannelStats_zero`: owner 0 with a foreign
subscription and a foreign video in the store. -/
theorem getChannelStats_zero_witness :
    getChannelStats 0 [⟨0, 1, 2⟩] [⟨0, 3, 7, true⟩] []
      = [("totalSubscribers", 0), ("totalLikes", 0), ("totalViews", 0), ("totalVideos", 0)] :=
  getChannelStats_zero 0 [⟨0, 1, 2⟩] [⟨0, 3, 7, true⟩] [] (by decide) (by decide)

/-- C4: for update/delete of a Tweet, Comment or Playlist, a missing
entity fails with NotFound (404) before any ownership check, and an
existing entity mutated by a non-owner fails with a Forbidden-kind error
(400 or 403 in the source) while the stored collection is left unchanged. -/
theorem ownerGuard_checks (caller eid : Nat) (content name description : String)
    (tweets : List TweetRec) (comments : List CommentRec) (playlists : List PlaylistRec)
    (hc : content ≠ "") (hn : name ≠ "") (hd : description ≠ "") :
    (tweets.find? (fun t => t.id == eid) = none →
      updateTweet caller eid content tweets
        = (tweets, .error ⟨404, "Tweet not found"⟩) ∧
      deleteTweet caller eid tweets = (tweets, .error ⟨404, "Tweet not found"⟩)) ∧
    (comments.find? (fun c => c.id == eid) = none →
      updateComment caller eid content comments
        = (comments, .error ⟨404, "Comment not found"⟩) ∧
      deleteComment caller eid comments = (comments, .error ⟨404, "Comment not found"⟩)) ∧
    (playlists.find? (fun p => p.id == eid) = none →
      updatePlaylist caller eid name description playlists
        = (playlists, .error ⟨404, "Playlist not found"⟩) ∧
      deletePlaylist caller eid playlists = (playlists, .error ⟨404, "Playlist not found"⟩)) ∧
    (∀ t, tweets.find? (fun x => x.id == eid) = some t → t.owner ≠ caller →
      ((updateTweet caller eid content tweets).1 = tweets ∧
        (updateTweet caller eid content tweets).2
          = .error ⟨400, "Only the owner can edit their tweet"⟩ ∧
        ForbiddenKind ⟨400, "Only the owner can edit their tweet"⟩) ∧
      ((deleteTweet caller eid tweets).1 = tweets ∧
        (deleteTweet caller eid tweets).2
          = .error ⟨400, "Only the owner can delete their tweet"⟩ ∧
        ForbiddenKind ⟨400, "Only the owner can delete their tweet"⟩)) ∧
    (∀ c, comments.find? (fun x => x.id == eid) = some c → c.owner ≠ caller →
      ((updateComment caller eid content comments).1 = comments ∧
        (updateComment caller eid content comments).2
          = .error ⟨403, "Only the comment owner can update this comment"⟩ ∧
        ForbiddenKind ⟨403, "Only the comment owner can update this comment"⟩) ∧
      ((deleteComment caller eid comments).1 = comments ∧
        (deleteComment caller eid comments).2
          = .error ⟨403, "Only the comment owner can delete this comment"⟩ ∧
        ForbiddenKind ⟨403, "Only the comment owner can delete this comment"⟩)) ∧
    (∀ p, playlists.find? (fun x => x.id == eid) = some p → p.owner ≠ caller →
      ((updatePlaylist caller eid name description playlists).1 = playlists ∧
        (updatePlaylist caller eid name description playlists).2
          = .error ⟨400, "Only the owner can edit the playlist"⟩ ∧
        ForbiddenKind ⟨400, "Only the owner can edit the playlist"⟩) ∧
      ((deletePlaylist caller eid playlists).1 = playlists ∧
        (deletePlaylist caller eid playlists).2
          = .error ⟨400, "Only the owner can delete the playlist"⟩ ∧
        ForbiddenKind ⟨400, "Only the owner can delete the playlist"⟩)) := by
  have hnd : ¬ (name = "" ∨ description = "") := by
    rintro (h | h)
    · exact hn h
    · exact hd h
  refine ⟨?_, ?_, ?_, ?_, ?_, ?_⟩
  · intro hf
    constructor
    · unfold updateTweet
      rw [if_neg hc, hf]
    · unfold deleteTweet
      rw [hf]
  · intro hf
    constructor
    · unfold updateComment
      rw [if_neg hc, hf]
    · unfold deleteComment
      rw [hf]
  · intro hf
    constructor
    · unfold updatePlaylist
      rw [if_neg hnd, hf]
    · unfold deletePlaylist
      rw [hf]
  · intro t hf ho
    have h1 : updateTweet caller eid content tweets
        = (tweets, .error ⟨400, "Only the owner can edit their tweet"⟩) := by
      simp only [updateTweet, if_neg hc, hf, if_pos ho]
    have h2 : deleteTweet caller eid tweets
        = (tweets, .error ⟨400, "Only the owner can delete their tweet"⟩) := by
      simp only [deleteTweet, hf, if_pos ho]
    exact ⟨⟨by rw [h1], by rw [h1], Or.inl rfl⟩, ⟨by rw [h2], by rw [h2], Or.inl rfl⟩⟩
  · intro c hf ho
    have h1 : updateComment caller eid content comments
        = (comments, .error ⟨403, "Only the comment owner can update this comment"⟩) := by
      simp only [updateComment, if_neg hc, hf, if_pos ho]
    have h2 : deleteComment caller eid comments
        = (comments, .error ⟨403, "Only the comment owner can delete this comment"⟩) := by
      simp only [deleteComment, hf, if_pos ho]
    exact ⟨⟨by rw [h1], by rw [h1], Or.inr rfl⟩, ⟨by rw [h2], by rw [h2], Or.inr rfl⟩⟩
  · intro p hf ho
    have h1 : updatePlaylist caller eid name description playlists
        = (playlists, .error ⟨400, "Only the owner can edit the playlist"⟩) := by
      simp only [updatePlaylist, if_neg hnd, hf, if_pos ho]
    have h2 : deletePlaylist caller eid playlists
        = (playlists, .error ⟨400, "Only the owner can delete the playlist"⟩) := by
      simp only [deletePlaylist, hf, if_pos ho]
    exact ⟨⟨by rw [h1], by rw [h1], Or.inl rfl⟩, ⟨by rw [h2], by rw [h2], Or.inl rfl⟩⟩

/-- Closed instance of `ownerGuard_checks`: caller 7 hits owner 5's tweet
and comment (Forbidden-kind, store unchanged) and a missing playlist
(404). -/
theorem ownerGuard_checks_witness :
    ((updateTweet 7 1 "a" [⟨1, "x", 5, 0⟩]).1 = [⟨1, "x", 5, 0⟩] ∧
      (updateTweet 7 1 "a" [⟨1, "x", 5, 0⟩]).2
        = .error ⟨400, "Only the owner can edit their tweet"⟩ ∧
      ForbiddenKind ⟨400, "Only the owner can edit their tweet"⟩) ∧
    ((updateComment 7 1 "a" [⟨1, "y", 9, 5, 0⟩]).1 = [⟨1, "y", 9, 5, 0⟩] ∧
      (updateComment 7 1 "a" [⟨1, "y", 9, 5, 0⟩]).2
        = .error ⟨403, "Only the comment owner can update this comment"⟩ ∧
      ForbiddenKind ⟨403, "Only the comment owner can update this comment"⟩) ∧
    updatePlaylist 7 1 "n" "d" [] = ([], .error ⟨404, "Playlist not found"⟩) := by
  have h := ownerGuard_checks 7 1 "a" "n" "d" [⟨1, "x", 5, 0⟩] [⟨1, "y", 9, 5, 0⟩] []
    (by decide) (by decide) (by decide)
  exact ⟨(h.2.2.2.1 ⟨1, "x", 5, 0⟩ (by decide) (by decide)).1,
    (h.2.2.2.2.1 ⟨1, "y", 9, 5, 0⟩ (by decide) (by decide)).1,
    (h.2.2.1 (by decide)).1⟩

/-- C5 counterexample: a valid tweet creation answers HTTP 200, not the
201 the claim states. -/
theorem createTweet_status_counterexample :
    (createTweet 3 "hello" [] 0).2.toOption.map (fun r => r.httpStatus) = some 200 ∧
    (createTweet 3 "hello" [] 0).2.toOption.map (fun r => r.httpStatus) ≠ some 201 ∧
    (createTweet 3 "hello" [] 0).2.toOption.map (fun r => r.data)
      = some ⟨0, "hello", 3, 0⟩ := by
  decide

/-- C5 (amended): a tweet creation with non-empty content by caller U
succeeds with HTTP status 200 (both the HTTP status and the envelope
statusCode are 200, not 201), the response tweet's content equals the
submitted content, its owner is U, and the tweet is appended to the
store. -/
theorem createTweet_ok (caller : Nat) (content : String) (tweets : List TweetRec)
    (nextId : Nat) (h : content ≠ "") :
    (createTweet caller content tweets nextId).1 = tweets ++ [⟨nextId, content, caller, 0⟩] ∧
    (createTweet caller content tweets nextId).2
      = .ok ⟨200, 200, ⟨nextId, content, caller, 0⟩, "Tweet created successfully"⟩ := by
  unfold createTweet
  rw [if_neg h]
  exact ⟨rfl, rfl⟩

/-- Closed instance of `createTweet_ok`: user 3 posts "hello". -/
theorem createTweet_ok_witness :
    (createTweet 3 "hello" [] 0).1 = [] ++ [⟨0, "hello", 3, 0⟩] ∧
    (createTweet 3 "hello" [] 0).2
      = .ok ⟨200, 200, ⟨0, "hello", 3, 0⟩, "Tweet created successfully"⟩ :=
  createTweet_ok 3 "hello" [] 0 (by decide)

theorem find?_map_id_preserving (ps : List PlaylistRec) (pid : Nat)
    (f : PlaylistRec → PlaylistRec) (hid : ∀ x, (f x).id = x.id) :
    (ps.map f).find? (fun x => x.id == pid) = (ps.find? (fun x => x.id == pid)).map f := by
  induction ps with
  | nil => rfl
  | cons a t ih =>
    rw [List.map_cons]
    by_cases h : (a.id == pid) = true
    · have h' : ((f a).id == pid) = true := by rw [hid a]; exact h
      simp only [List.find?_cons]
      rw [h, h']
      rfl
    · have h' : ((f a).id == pid) = false := by
        rw [hid a]
        simpa using h
      have h'' : (a.id == pid) = false := by simpa using h
      simp only [List.find?_cons]
      rw [h', h'']
      simpa using ih

theorem count_addToSet_twice (v : Nat) (l : List Nat) (h : l.count v ≤ 1) :
    (addToSet v (addToSet v l)).count v = 1 := by
  by_cases hm : v ∈ l
  · have h1 : addToSet v l = l := by
      unfold addToSet
      rw [if_pos hm]
    rw [h1, h1]
    have : 0 < l.count v := List.count_pos_iff.mpr hm
    omega
  · have h1 : addToSet v l = l ++ [v] := by
      unfold addToSet
      rw [if_neg hm]
    have hm2 : v ∈ l ++ [v] := by simp
    have h2 : addToSet v (l ++ [v]) = l ++ [v] := by
      unfold addToSet
      rw [if_pos hm2]
    rw [h1, h2, List.count_append]
    have h0 : l.count v = 0 := by
      rw [List.count_eq_zero]
      exact hm
    rw [h0]
    simp

/-- C6: the owner adding the same video id twice to a playlist leaves
exactly one membership entry for it, both in the playlist the response
reports and in the stored playlist — `$addToSet` suppresses the
duplicate.  Hypothesis `hcount` is the stored set-semantics invariant. -/
theorem addVideoToPlaylist_twice (caller pid vid : Nat)
    (ps : List PlaylistRec) (vids : List VideoRec) (p : PlaylistRec) (v : VideoRec)
    (hfind : ps.find? (fun x => x.id == pid) = some p)
    (hown : p.owner = caller)
    (hvid : vids.find? (fun x => x.id == vid) = some v)
    (hcount : p.videos.count vid ≤ 1) :
    (addVideoToPlaylist caller pid vid
        (addVideoToPlaylist caller pid vid ps vids).1 vids).2
      = .ok ⟨200, 200, { p with videos := addToSet vid (addToSet vid p.videos) },
          "Video added to playlist successfully"⟩ ∧
    (addToSet vid (addToSet vid p.videos)).count vid = 1 ∧
    ((addVideoToPlaylist caller pid vid
        (addVideoToPlaylist caller pid vid ps vids).1 vids).1.find?
      (fun x => x.id == pid))
      = some { p with videos := addToSet vid (addToSet vid p.videos) } := by
  have hno : ¬ p.owner ≠ caller := by simp [hown]
  have hpid : p.id = pid := by
    have h := List.find?_some hfind
    simpa using h
  have hidpre : ∀ x : PlaylistRec,
      ((fun q => if q.id == pid then { q with videos := addToSet vid q.videos } else q) x).id
        = x.id := by
    intro x
    by_cases hx : (x.id == pid) = true
    · simp [hx]
    · simp [hx]
  have h1 : addVideoToPlaylist caller pid vid ps vids
      = (ps.map (fun q => if q.id == pid then { q with videos := addToSet vid q.videos } else q),
         .ok ⟨200, 200, { p with videos := addToSet vid p.videos },
           "Video added to playlist successfully"⟩) := by
    simp only [addVideoToPlaylist, hfind, hvid, if_neg hno]
  have hs1 : (addVideoToPlaylist caller pid vid ps vids).1
      = ps.map (fun q => if q.id == pid then { q with videos := addToSet vid q.videos } else q) := by
    rw [h1]
  have hfind1 : (ps.map (fun q =>
        if q.id == pid then { q with videos := addToSet vid q.videos } else q)).find?
      (fun x => x.id == pid) = some { p with videos := addToSet vid p.videos } := by
    rw [find?_map_id_preserving _ _ _ hidpre, hfind]
    simp [hpid]
  have hno2 : ¬ ({ p with videos := addToSet vid p.videos } : PlaylistRec).owner ≠ caller := by
    simp [hown]
  have h2 : addVideoToPlaylist caller pid vid
      (ps.map (fun q => if q.id == pid then { q with videos := addToSet vid q.videos } else q))
      vids
      = ((ps.map (fun q =>
            if q.id == pid then { q with videos := addToSet vid q.videos } else q)).map
          (fun q => if q.id == pid then { q with videos := addToSet vid q.videos } else q),
         .ok ⟨200, 200, { p with videos := addToSet vid (addToSet vid p.videos) },
           "Video added to playlist successfully"⟩) := by
    simp only [addVideoToPlaylist, hfind1, hvid, if_neg hno2]
  refine ⟨?_, count_addToSet_twice vid p.videos hcount, ?_⟩
  · rw [hs1, h2]
  · rw [hs1]
    have hs2 : (addVideoToPlaylist caller pid vid
        (ps.map (fun q => if q.id == pid then { q with videos := addToSet vid q.videos } else q))
        vids).1
        = (ps.map (fun q =>
            if q.id == pid then { q with videos := addToSet vid q.videos } else q)).map
          (fun q => if q.id == pid then { q with videos := addToSet vid q.videos } else q) := by
      rw [h2]
    rw [hs2, find?_map_id_preserving _ _ _ hidpre, find?_map_id_preserving _ _ _ hidpre, hfind]
    simp [hpid]

/-- Closed instance of `addVideoToPlaylist_twice`: owner 7 adds video 5
twice to the empty playlist 1. -/
theorem addVideoToPlaylist_twice_witness :
    (addVideoToPlaylist 7 1 5
        (addVideoToPlaylist 7 1 5 [⟨1, "n", "d", 7, []⟩] [⟨5, 2, 0, true⟩]).1
        [⟨5, 2, 0, true⟩]).2
      = .ok ⟨200, 200, ⟨1, "n", "d", 7, addToSet 5 (addToSet 5 [])⟩,
          "Video added to playlist successfully"⟩ ∧
    (addToSet 5 (addToSet 5 ([] : List Nat))).count 5 = 1 ∧
    ((addVideoToPlaylist 7 1 5
        (addVideoToPlaylist 7 1 5 [⟨1, "n", "d", 7, []⟩] [⟨5, 2, 0, true⟩]).1
        [⟨5, 2, 0, true⟩]).1.find? (fun x => x.id == 1))
      = some ⟨1, "n", "d", 7, addToSet 5 (addToSet 5 [])⟩ :=
  addVideoToPlaylist_twice 7 1 5 [⟨1, "n", "d", 7, []⟩] [⟨5, 2, 0, true⟩]
    ⟨1, "n", "d", 7, []⟩ ⟨5, 2, 0, true⟩ (by decide) rfl (by decide) (by decide)

theorem length_insertByKeyDesc {α : Type} (key : α → Nat) (a : α) (l : List α) :
    (insertByKeyDesc key a l).length = l.length + 1 := by
  induction l with
  | nil => rfl
  | cons b t ih =>
    unfold insertByKeyDesc
    by_cases h : key b ≤ key a
    · rw [if_pos h]
      rfl
    · rw [if_neg h]
      simp only [List.length_cons, ih]

theorem length_sortByKeyDesc {α : Type} (key : α → Nat) (l : List α) :
    (sortByKeyDesc key l).length = l.length := by
  induction l with
  | nil => rfl
  | cons a t ih =>
    unfold sortByKeyDesc
    rw [length_insertByKeyDesc, ih]
    rfl

theorem mem_insertByKeyDesc {α : Type} (key : α → Nat) (a x : α) (l : List α) :
    x ∈ insertByKeyDesc key a l ↔ x = a ∨ x ∈ l := by
  induction l with
  | nil => simp [insertByKeyDesc]
  | cons b t ih =>
    unfold insertByKeyDesc
    by_cases h : key b ≤ key a
    · rw [if_pos h]
      simp
    · rw [if_neg h]
      simp only [List.mem_cons, ih]
      tauto

theorem mem_sortByKeyDesc {α : Type} (key : α → Nat) (x : α) (l : List α) :
    x ∈ sortByKeyDesc key l ↔ x ∈ l := by
  induction l with
  | nil => exact Iff.rfl
  | cons a t ih =>
    unfold sortByKeyDesc
    rw [mem_insertByKeyDesc]
    simp only [List.mem_cons, ih]

theorem length_paginate {α : Type} (page limit : Nat) (l : List α) :
    (paginate page limit l).length = min limit (l.length - (page - 1) * limit) := by
  unfold paginate
  rw [List.length_take, List.length_drop]

theorem mem_of_paginate {α : Type} (page limit : Nat) (l : List α) (x : α)
    (h : x ∈ paginate page limit l) : x ∈ l := by
  unfold paginate at h
  exact List.mem_of_mem_drop (List.mem_of_mem_take h)

/-- C7: listing the comments of a video with N stored comments at page p
and limit l skips (p-1)·l of them and returns min(l, N-(p-1)·l) comments
(the Nat subtraction models the max(0,·) clamp); pagination itself is
modelled from the spec, see `paginate`. -/
theorem getVideoComments_page_length (videoId page limit : Nat) (cu : Option Nat)
    (videos : List VideoRec) (comments : List CommentRec) (likes : List LikeRec)
    (v : VideoRec) (hv : videos.find? (fun x => x.id == videoId) = some v) :
    (getVideoComments videoId page limit cu videos comments likes).toOption.map List.length
      = some (min limit
          ((comments.filter (fun c => c.video == videoId)).length - (page - 1) * limit)) := by
  have hlen : (paginate page limit
      ((sortByKeyDesc (fun c => c.createdAt)
        (comments.filter (fun c => c.video == videoId))).map
          (commentViewOf cu likes))).length
      = min limit
          ((comments.filter (fun c => c.video == videoId)).length - (page - 1) * limit) := by
    rw [length_paginate, List.length_map, length_sortByKeyDesc]
  simp only [getVideoComments, hv, Except.toOption]
  exact congrArg some hlen

/-- Closed instance of `getVideoComments_page_length`: 15 stored comments,
page 2 with limit 10 returns 5 comments, page 1 returns 10. -/
theorem getVideoComments_page_length_witness :
    ((getVideoComments 9 2 10 none [⟨9, 3, 0, true⟩]
        ((List.range 15).map (fun i => (⟨i, "c", 9, 3, i⟩ : CommentRec)))
        []).toOption.map List.length = some 5) ∧
    ((getVideoComments 9 1 10 none [⟨9, 3, 0, true⟩]
        ((List.range 15).map (fun i => (⟨i, "c", 9, 3, i⟩ : CommentRec)))
        []).toOption.map List.length = some 10) := by
  have h2 := getVideoComments_page_length 9 2 10 none [⟨9, 3, 0, true⟩]
    ((List.range 15).map (fun i => (⟨i, "c", 9, 3, i⟩ : CommentRec))) [] ⟨9, 3, 0, true⟩
    (by decide)
  have h1 := getVideoComments_page_length 9 1 10 none [⟨9, 3, 0, true⟩]
    ((List.range 15).map (fun i => (⟨i, "c", 9, 3, i⟩ : CommentRec))) [] ⟨9, 3, 0, true⟩
    (by decide)
  constructor
  · rw [h2]
    decide
  · rw [h1]
    decide

/-- C8: with no authenticated identity, `getUserTweets` and
`getVideoComments` still succeed, and the isLiked field of every returned
row is false — the membership test resolves to false instead of
throwing. -/
theorem unauthenticated_isLiked_false (userId videoId page limit : Nat)
    (tweets : List TweetRec) (videos : List VideoRec) (comments : List CommentRec)
    (likes : List LikeRec) (v : VideoRec)
    (hv : videos.find? (fun x => x.id == videoId) = some v) :
    (getUserTweets userId none tweets likes).all (fun tv => !tv.isLiked) = true ∧
    (getVideoComments videoId page limit none videos comments likes).toOption.map
        (fun out => out.all (fun cv => !cv.isLiked)) = some true := by
  constructor
  · rw [List.all_eq_true]
    intro tv htv
    unfold getUserTweets at htv
    obtain ⟨t, ht, rfl⟩ := List.mem_map.mp htv
    rfl
  · simp only [getVideoComments, hv, Except.toOption]
    have hall : (paginate page limit
        ((sortByKeyDesc (fun c => c.createdAt)
          (comments.filter (fun c => c.video == videoId))).map
            (commentViewOf none likes))).all (fun cv => !cv.isLiked) = true := by
      rw [List.all_eq_true]
      intro cv hcv
      have h1 := mem_of_paginate _ _ _ _ hcv
      obtain ⟨c, hcmem, rfl⟩ := List.mem_map.mp h1
      rfl
    exact congrArg some hall

/-- Closed instance of `unauthenticated_isLiked_false`: one tweet and one
comment, each carrying a like with a `likedBy` value. -/
theorem unauthenticated_isLiked_false_witness :
    (getUserTweets 3 none [⟨1, "x", 3, 0⟩]
        [⟨0, none, none, some 1, some 4, none, none⟩]).all (fun tv => !tv.isLiked) = true ∧
    (getVideoComments 9 1 10 none [⟨9, 3, 0, true⟩] [⟨1, "y", 9, 3, 0⟩]
        [⟨0, none, some 1, none, some 4, none, none⟩]).toOption.map
        (fun out => out.all (fun cv => !cv.isLiked)) = some true :=
  unauthenticated_isLiked_false 3 9 1 10 [⟨1, "x", 3, 0⟩] [⟨9, 3, 0, true⟩]
    [⟨1, "y", 9, 3, 0⟩] [⟨0, none, some 1, none, some 4, none, none⟩] ⟨9, 3, 0, true⟩
    (by decide)

theorem inLikedBy_false_of_no_likedBy (u : Nat) (likes : List LikeRec)
    (h : ∀ r ∈ likes, r.likedBy ≠ some u) : inLikedBy (some u) likes = false := by
  unfold inLikedBy
  have hmem : u ∉ likedByValues likes := by
    intro hmem
    rw [likedByValues, List.mem_filterMap] at hmem
    obtain ⟨r, hr, hru⟩ := hmem
    exact h r hr hru
  cases hcon : (likedByValues likes).contains u with
  | false => exact hcon
  | true => exact absurd (by simpa using hcon) hmem

/-- C9: `toggleCommentLike` and `toggleTweetLike` store the liking user
under `commentedBy` / `tweetedBy` and leave `likedBy` unset, so — for a
user whose likes were all produced by these toggles — the likedBy-based
isLiked test of `getVideoComments`/`getUserTweets` is false on the liked
target's likes, and `getLikedVideos`, whose `$match` is on `likedBy`,
returns nothing. -/
theorem commentTweetLikes_invisible (u c t : Nat) (s : LikeStore) (videos : List VideoRec)
    (hc : s.likes.find? (commentPairP u c) = none)
    (ht : s.likes.find? (tweetPairP u t) = none)
    (hprior : ∀ r ∈ s.likes, r.likedBy ≠ some u) :
    (toggleCommentLike u c s).1.likes
        = s.likes ++ [⟨s.nextId, none, some c, none, none, some u, none⟩] ∧
    (toggleTweetLike u t s).1.likes
        = s.likes ++ [⟨s.nextId, none, none, some t, none, none, some u⟩] ∧
    inLikedBy (some u)
        ((toggleCommentLike u c s).1.likes.filter (fun r => r.comment == some c)) = false ∧
    inLikedBy (some u)
        ((toggleTweetLike u t s).1.likes.filter (fun r => r.tweet == some t)) = false ∧
    getLikedVideos u (toggleCommentLike u c s).1.likes videos = [] ∧
    getLikedVideos u (toggleTweetLike u t s).1.likes videos = [] := by
  have h1 : (toggleCommentLike u c s).1.likes
      = s.likes ++ [⟨s.nextId, none, some c, none, none, some u, none⟩] := by
    simp only [toggleCommentLike, toggleLike, hc]
  have h2 : (toggleTweetLike u t s).1.likes
      = s.likes ++ [⟨s.nextId, none, none, some t, none, none, some u⟩] := by
    simp only [toggleTweetLike, toggleLike, ht]
  have hall1 : ∀ r ∈ s.likes ++ [(⟨s.nextId, none, some c, none, none, some u, none⟩ : LikeRec)],
      r.likedBy ≠ some u := by
    intro r hr
    rcases List.mem_append.mp hr with h | h
    · exact hprior r h
    · rw [List.mem_singleton] at h
      subst h
      simp
  have hall2 : ∀ r ∈ s.likes ++ [(⟨s.nextId, none, none, some t, none, none, some u⟩ : LikeRec)],
      r.likedBy ≠ some u := by
    intro r hr
    rcases List.mem_append.mp hr with h | h
    · exact hprior r h
    · rw [List.mem_singleton] at h
      subst h
      simp
  refine ⟨h1, h2, ?_, ?_, ?_, ?_⟩
  · rw [h1]
    exact inLikedBy_false_of_no_likedBy u _
      (fun r hr => hall1 r (List.mem_of_mem_filter hr))
  · rw [h2]
    exact inLikedBy_false_of_no_likedBy u _
      (fun r hr => hall2 r (List.mem_of_mem_filter hr))
  · rw [getLikedVideos, h1]
    have hfil : (s.likes ++ [(⟨s.nextId, none, some c, none, none, some u, none⟩ : LikeRec)]).filter
        (fun r => r.likedBy == some u) = [] := by
      rw [List.filter_eq_nil_iff]
      intro r hr
      simpa using hall1 r hr
    rw [hfil]
    rfl
  · rw [getLikedVideos, h2]
    have hfil : (s.likes ++ [(⟨s.nextId, none, none, some t, none, none, some u⟩ : LikeRec)]).filter
        (fun r => r.likedBy == some u) = [] := by
      rw [List.filter_eq_nil_iff]
      intro r hr
      simpa using hall2 r hr
    rw [hfil]
    rfl

/-- Closed instance of `commentTweetLikes_invisible`: user 1 toggles a like
onto comment 2 and tweet 3 over the empty store. -/
theorem commentTweetLikes_invisible_witness :
    (toggleCommentLike 1 2 (⟨[], 0⟩ : LikeStore)).1.likes
        = [] ++ [⟨0, none, some 2, none, none, some 1, none⟩] ∧
    (toggleTweetLike 1 3 (⟨[], 0⟩ : LikeStore)).1.likes
        = [] ++ [⟨0, none, none, some 3, none, none, some 1⟩] ∧
    inLikedBy (some 1)
        ((toggleCommentLike 1 2 (⟨[], 0⟩ : LikeStore)).1.likes.filter
          (fun r => r.comment == some 2)) = false ∧
    inLikedBy (some 1)
        ((toggleTweetLike 1 3 (⟨[], 0⟩ : LikeStore)).1.likes.filter
          (fun r => r.tweet == some 3)) = false ∧
    getLikedVideos 1 (toggleCommentLike 1 2 (⟨[], 0⟩ : LikeStore)).1.likes
        [⟨5, 2, 0, true⟩] = [] ∧
    getLikedVideos 1 (toggleTweetLike 1 3 (⟨[], 0⟩ : LikeStore)).1.likes
        [⟨5, 2, 0, true⟩] = [] :=
  commentTweetLikes_invisible 1 2 3 ⟨[], 0⟩ [⟨5, 2, 0, true⟩]
    (by decide) (by decide) (by decide)

/-- C10: `isPasswordCorrect` awaits the bcrypt comparison but never
returns it, so it resolves undefined for every input; consequently
`loginUser` answers 401 "Invalid user credentials" for every request that
names an existing user, whatever the comparison function would return —
no login ever succeeds. -/
theorem loginUser_always_401 (compare : String → String → Bool)
    (userName email : Option String) (password : String) (users : List UserRec)
    (u : UserRec)
    (hn : truthyStr userName = true) (he : truthyStr email = true)
    (hu : users.find? (fun x => some x.userName == userName || some x.email == email)
      = some u) :
    isPasswordCorrect compare password u.password = none ∧
    loginUser compare userName email password users
      = .error ⟨401, "Invalid user credentials"⟩ := by
  refine ⟨rfl, ?_⟩
  simp [loginUser, hn, he, hu, truthy, isPasswordCorrect]

/-- Closed instance of `loginUser_always_401`: the stored user logs in and
the comparison function even answers true for every input. -/
theorem loginUser_always_401_witness :
    isPasswordCorrect (fun _ _ => true) "pw" "hash" = none ∧
    loginUser (fun _ _ => true) (some "u") (some "e") "pw" [⟨1, "u", "e", "hash"⟩]
      = .error ⟨401, "Invalid user credentials"⟩ :=
  loginUser_always_401 (fun _ _ => true) (some "u") (some "e") "pw" [⟨1, "u", "e", "hash"⟩]
    ⟨1, "u", "e", "hash"⟩ rfl rfl (by decide)

end Backend
